import Mathlib

/-!
# Verification of the TheODXProxy TypeScript client (`src/odxproxy-client.ts`)

This file shallowly embeds the single-file TypeScript client:

* the JSON values the client manipulates (`JsonVal`), together with the
  JavaScript behaviours the client relies on (`jsTypeof`, property access,
  the `in` operator),
* an executable model of the platform function `JSON.parse` (`jsonParse`) and
  `JSON.stringify` (`jsonStringify`) on the JSON fragment the client uses,
* the client configuration, the constructor `OdooProxyApiClient.make`
  (TS `constructor`) and the factory `createOdooProxyClient`,
* the dispatch operation `forwardToOdoo`, written as a pure function from
  the stored settings, the request, and the injected transport
  behaviour to a `DispatchOutcome`; it also returns the list of transport
  invocations it performed so that "exactly one HTTP call" is expressible.

Theorems about construction, status classification, body parsing,
envelope validation and error classification follow the definitions.
-/

set_option autoImplicit false

namespace ODXProxy

/-- JSON values as produced by `JSON.parse`.  Numbers keep their source
lexeme (the client never computes with numbers, it only passes them
through), objects keep their fields in insertion order (duplicate keys may
occur textually; property access takes the last occurrence, as
`JSON.parse` keeps the last duplicate). -/
inductive JsonVal where
  | null
  | bool (b : Bool)
  | num (lexeme : String)
  | str (s : String)
  | arr (elems : List JsonVal)
  | obj (fields : List (String × JsonVal))
  deriving Repr

/-- JavaScript `typeof` on a parsed JSON value: `null`, arrays and plain
objects all have `typeof x === "object"`. -/
def jsTypeof : JsonVal → String
  | .null => "object"
  | .bool _ => "boolean"
  | .num _ => "number"
  | .str _ => "string"
  | .arr _ => "object"
  | .obj _ => "object"

/-- Last-occurrence lookup in the field list of an object: models JavaScript
property access on an object built by `JSON.parse`, where a duplicated key
ends up with the last value. -/
def lookupLast (key : String) : List (String × JsonVal) → Option JsonVal
  | [] => none
  | (k, v) :: rest =>
    match lookupLast key rest with
    | some w => some w
    | none => if k = key then some v else none

/-- JavaScript property access `x[key]` for the (non-index) keys the
client reads: `undefined` (`none`) on anything but an object with that
key. -/
def jsProp (v : JsonVal) (key : String) : Option JsonVal :=
  match v with
  | .obj fields => lookupLast key fields
  | _ => none

/-- JavaScript `key in x` for an object: any occurrence counts. -/
def jsHasProp (v : JsonVal) (key : String) : Bool :=
  match v with
  | .obj fields => fields.any (fun kv => kv.1 = key)
  | _ => false

/-- The opening-brace character, kept out of literals. -/
def lbrace : Char := Char.ofNat 123

/-- The closing-brace character, kept out of literals. -/
def rbrace : Char := Char.ofNat 125

/-- Lowercase hexadecimal digit. -/
def hexDigit (n : Nat) : Char :=
  if n < 10 then Char.ofNat (48 + n) else Char.ofNat (87 + n % 16)

/-- Four lowercase hex digits, as in a JSON `\uXXXX` escape. -/
def hex4 (n : Nat) : String :=
  String.mk [hexDigit (n / 4096 % 16), hexDigit (n / 256 % 16),
             hexDigit (n / 16 % 16), hexDigit (n % 16)]

/-- How `JSON.stringify` renders one character inside a string literal. -/
def escapeChar (c : Char) : String :=
  if c = '"' then "\\\""
  else if c = '\\' then "\\\\"
  else if c = '\n' then "\\n"
  else if c = '\r' then "\\r"
  else if c = '\t' then "\\t"
  else if c = '\x08' then "\\b"
  else if c = '\x0c' then "\\f"
  else if c.toNat < 32 then "\\u" ++ hex4 c.toNat
  else String.singleton c

/-- `JSON.stringify` string-literal escaping. -/
def escapeString (s : String) : String :=
  s.data.foldl (fun acc c => acc ++ escapeChar c) ""

mutual

/-- Model of the platform function `JSON.stringify` on `JsonVal` (the client
serializes the outbound request with it).  Fields are emitted in order. -/
def jsonStringify : JsonVal → String
  | .null => "null"
  | .bool true => "true"
  | .bool false => "false"
  | .num lexeme => lexeme
  | .str s => "\"" ++ escapeString s ++ "\""
  | .arr elems => "[" ++ stringifyElems elems ++ "]"
  | .obj fields =>
      String.singleton lbrace ++ stringifyMembers fields ++ String.singleton rbrace

/-- Comma-separated array elements. -/
def stringifyElems : List JsonVal → String
  | [] => ""
  | [v] => jsonStringify v
  | v :: rest => jsonStringify v ++ "," ++ stringifyElems rest

/-- Comma-separated `"key":value` members. -/
def stringifyMembers : List (String × JsonVal) → String
  | [] => ""
  | [(k, v)] => "\"" ++ escapeString k ++ "\":" ++ jsonStringify v
  | (k, v) :: rest =>
      "\"" ++ escapeString k ++ "\":" ++ jsonStringify v ++ "," ++ stringifyMembers rest

end

/-- JSON whitespace. -/
def jsonWs (c : Char) : Bool := c = ' ' || c = '\t' || c = '\n' || c = '\r'

/-- Drop leading JSON whitespace. -/
def skipWs : List Char → List Char
  | [] => []
  | c :: cs => if jsonWs c then skipWs cs else c :: cs

/-- Value of a hex digit, if any. -/
def hexVal (c : Char) : Option Nat :=
  if '0' ≤ c ∧ c ≤ '9' then some (c.toNat - 48)
  else if 'a' ≤ c ∧ c ≤ 'f' then some (c.toNat - 87)
  else if 'A' ≤ c ∧ c ≤ 'F' then some (c.toNat - 55)
  else none

/-- Prepend a character to the string being accumulated by
`parseStringBody`. -/
def consStr (c : Char) :
    Except String (String × List Char) → Except String (String × List Char)
  | .ok (s, rest) => .ok (String.singleton c ++ s, rest)
  | .error e => .error e

/-- Parse the body of a JSON string literal, after its opening quote,
returning the decoded string and the input after the closing quote. -/
def parseStringBody : List Char → Except String (String × List Char)
  | [] => .error "Unterminated string in JSON"
  | c :: rest =>
    if c = '"' then .ok ("", rest)
    else if c = '\\' then
      match rest with
      | [] => .error "Unterminated string in JSON"
      | e :: rest2 =>
        if e = '"' then consStr '"' (parseStringBody rest2)
        else if e = '\\' then consStr '\\' (parseStringBody rest2)
        else if e = '/' then consStr '/' (parseStringBody rest2)
        else if e = 'b' then consStr '\x08' (parseStringBody rest2)
        else if e = 'f' then consStr '\x0c' (parseStringBody rest2)
        else if e = 'n' then consStr '\n' (parseStringBody rest2)
        else if e = 'r' then consStr '\r' (parseStringBody rest2)
        else if e = 't' then consStr '\t' (parseStringBody rest2)
        else if e = 'u' then
          match rest2 with
          | h1 :: h2 :: h3 :: h4 :: rest3 =>
            match hexVal h1, hexVal h2, hexVal h3, hexVal h4 with
            | some a, some b, some x, some d =>
                consStr (Char.ofNat (4096 * a + 256 * b + 16 * x + d)) (parseStringBody rest3)
            | _, _, _, _ => .error "Bad Unicode escape in JSON"
          | _ => .error "Bad Unicode escape in JSON"
        else .error "Bad escaped character in JSON"
    else if c.toNat < 32 then .error "Bad control character in JSON string literal"
    else consStr c (parseStringBody rest)

/-- Split off a maximal run of decimal digits. -/
def takeDigits : List Char → (List Char × List Char)
  | [] => ([], [])
  | c :: cs =>
    if c.isDigit then
      match takeDigits cs with
      | (ds, rest) => (c :: ds, rest)
    else ([], c :: cs)

/-- Parse a JSON number, returning its source lexeme (JSON grammar:
optional minus, `0` or a nonzero-led digit run, optional fraction,
optional exponent). -/
def parseNumberLexeme (cs : List Char) : Except String (String × List Char) :=
  let (sign, afterSign) :=
    match cs with
    | '-' :: rest => (['-'], rest)
    | rest => (([] : List Char), rest)
  match takeDigits afterSign with
  | ([], _) => .error "Unexpected token in JSON: bad number"
  | (intDigits, afterInt) =>
    if intDigits.head? = some '0' ∧ intDigits.length > 1 then
      .error "Unexpected token in JSON: bad number"
    else
      let (fracDigits, afterFrac) :=
        match afterInt with
        | '.' :: rest => match takeDigits rest with
          | (ds, rest2) => (('.' :: ds : List Char), rest2)
        | rest => ([], rest)
      if fracDigits = ['.'] then .error "Unexpected token in JSON: bad number"
      else
        let expParse : Option (List Char × List Char) :=
          match afterFrac with
          | e :: rest =>
            if e = 'e' ∨ e = 'E' then
              let (esign, rest2) :=
                match rest with
                | '+' :: r => (([e, '+'] : List Char), r)
                | '-' :: r => ([e, '-'], r)
                | r => ([e], r)
              match takeDigits rest2 with
              | ([], _) => none
              | (ds, rest3) => some (esign ++ ds, rest3)
            else some ([], e :: rest)
          | [] => some ([], [])
        match expParse with
        | none => .error "Unexpected token in JSON: bad number"
        | some (expChars, rest) =>
            .ok (String.mk (sign ++ intDigits ++ fracDigits ++ expChars), rest)

/-- Drop an expected literal character sequence. -/
def stripChars : List Char → List Char → Option (List Char)
  | [], cs => some cs
  | p :: ps, c :: cs => if c = p then stripChars ps cs else none
  | _ :: _, [] => none

mutual

/-- Recursive-descent JSON value parser (fuel-indexed so recursion is
structural; `jsonParse` supplies fuel exceeding the nesting depth). -/
def parseVal : Nat → List Char → Except String (JsonVal × List Char)
  | 0, _ => .error "JSON nesting too deep"
  | fuel + 1, cs =>
    match skipWs cs with
    | [] => .error "Unexpected end of JSON input"
    | c :: rest =>
      if c = '"' then
        match parseStringBody rest with
        | .ok (s, rest2) => .ok (.str s, rest2)
        | .error e => .error e
      else if c = '[' then
        match skipWs rest with
        | ']' :: rest2 => .ok (.arr [], rest2)
        | rest2 => parseElems fuel rest2 []
      else if c = lbrace then
        match skipWs rest with
        | [] => .error "Unexpected end of JSON input"
        | d :: rest2 =>
          if d = rbrace then .ok (.obj [], rest2)
          else parseMembers fuel (d :: rest2) []
      else if c = 't' then
        match stripChars ['r', 'u', 'e'] rest with
        | some rest2 => .ok (.bool true, rest2)
        | none => .error "Unexpected token in JSON"
      else if c = 'f' then
        match stripChars ['a', 'l', 's', 'e'] rest with
        | some rest2 => .ok (.bool false, rest2)
        | none => .error "Unexpected token in JSON"
      else if c = 'n' then
        match stripChars ['u', 'l', 'l'] rest with
        | some rest2 => .ok (.null, rest2)
        | none => .error "Unexpected token in JSON"
      else if c = '-' ∨ c.isDigit then
        match parseNumberLexeme (c :: rest) with
        | .ok (lexeme, rest2) => .ok (.num lexeme, rest2)
        | .error e => .error e
      else .error "Unexpected token in JSON"

/-- Parse the elements of a non-empty JSON array, after `[`. -/
def parseElems : Nat → List Char → List JsonVal → Except String (JsonVal × List Char)
  | 0, _, _ => .error "JSON nesting too deep"
  | fuel + 1, cs, acc =>
    match parseVal fuel cs with
    | .error e => .error e
    | .ok (v, rest) =>
      match skipWs rest with
      | [] => .error "Unexpected end of JSON input"
      | c :: rest2 =>
        if c = ',' then parseElems fuel rest2 (acc ++ [v])
        else if c = ']' then .ok (.arr (acc ++ [v]), rest2)
        else .error "Expected comma or closing bracket after JSON array element"

/-- Parse the members of a non-empty JSON object, after its opening
brace. -/
def parseMembers : Nat → List Char → List (String × JsonVal) →
    Except String (JsonVal × List Char)
  | 0, _, _ => .error "JSON nesting too deep"
  | fuel + 1, cs, acc =>
    match skipWs cs with
    | [] => .error "Unexpected end of JSON input"
    | c :: rest =>
      if c = '"' then
        match parseStringBody rest with
        | .error e => .error e
        | .ok (key, rest2) =>
          match skipWs rest2 with
          | ':' :: rest3 =>
            match parseVal fuel rest3 with
            | .error e => .error e
            | .ok (v, rest4) =>
              match skipWs rest4 with
              | [] => .error "Unexpected end of JSON input"
              | d :: rest5 =>
                if d = ',' then parseMembers fuel rest5 (acc ++ [(key, v)])
                else if d = rbrace then .ok (.obj (acc ++ [(key, v)]), rest5)
                else .error "Expected comma or closing brace after JSON object member"
          | _ => .error "Expected colon in JSON object member"
      else .error "Expected string key in JSON object"

end

/-- Model of the platform function `JSON.parse` on the JSON fragment the client
exchanges: total, executable; returns the parsed value or a parse-failure
message (the model messages stand in for the engine `SyntaxError`
messages). -/
def jsonParse (s : String) : Except String JsonVal :=
  match parseVal (s.length + 1) s.data with
  | .error e => .error e
  | .ok (v, rest) =>
    match skipWs rest with
    | [] => .ok v
    | _ => .error "Unexpected non-whitespace character after JSON data"

/-! ## The client data model (`src/odxproxy-client.ts`) -/

/-- The response object a `fetch`-style transport produces: status code,
status text, and the outcome of `response.text()` — the body decoded as
text, or a read failure carrying the `message` of the thrown error
(`none` when that `message` is `undefined`, as consumed by the `??`
fallbacks in the client). -/
structure HttpResponse where
  status : Nat
  statusText : String
  bodyText : Except (Option String) String
  deriving Repr

/-- The HTTP request handed to the transport: url, method, headers in
order, and the serialized body, exactly the arguments of the `fetchFn`
call in `forwardToOdoo`. -/
structure HttpRequest where
  url : String
  method : String
  headers : List (String × String)
  body : String
  deriving Repr, DecidableEq

/-- A `fetch`-style transport, modelled by its behaviour on one request:
either a response, or a pre-response network failure carrying the
`message` of the thrown error (`none` when `undefined`). -/
def Transport : Type := HttpRequest → Except (Option String) HttpResponse

/-- TS `OdooInstanceConfig`: the target Odoo instance inside a request. -/
structure OdooInstanceConfig where
  url : String
  user_id : Int
  db : String
  api_key : String
  deriving Repr, DecidableEq

/-- TS `OdooAction`: the fixed enumeration of allowed actions. -/
inductive OdooAction where
  | search_count
  | search
  | read
  | fields_get
  | search_read
  | create
  | write
  | unlink
  | call_method
  deriving Repr, DecidableEq

/-- The wire string of each action (the TS type is a union of these
string literals). -/
def OdooAction.toWire : OdooAction → String
  | .search_count => "search_count"
  | .search => "search"
  | .read => "read"
  | .fields_get => "fields_get"
  | .search_read => "search_read"
  | .create => "create"
  | .write => "write"
  | .unlink => "unlink"
  | .call_method => "call_method"

/-- TS `OdooProxyRequest`.  A TS optional-and-nullable field (`x?: T |
null`) is `Option (Option _)`: `none` = key absent, `some none` = key
present with `null`. -/
structure OdooProxyRequest where
  id : String
  action : OdooAction
  model_id : String
  keyword : Option (Option (List (String × JsonVal))) := none
  params : Option (Option (List JsonVal)) := none
  fn_name : Option (Option String) := none
  odoo_instance : OdooInstanceConfig

/-- JSON view of an `OdooInstanceConfig`, in field-declaration order. -/
def OdooInstanceConfig.toJson (c : OdooInstanceConfig) : JsonVal :=
  .obj [("url", .str c.url), ("user_id", .num (toString c.user_id)),
        ("db", .str c.db), ("api_key", .str c.api_key)]

/-- One optional-and-nullable member under `JSON.stringify`: an absent
(`undefined`) property is omitted, a `null` one is emitted as `null`. -/
def optMember (name : String) : Option (Option JsonVal) → List (String × JsonVal)
  | none => []
  | some none => [(name, .null)]
  | some (some v) => [(name, v)]

/-- JSON view of an `OdooProxyRequest`, fields in declaration order (the
insertion order of an object literal following the interface). -/
def OdooProxyRequest.toJson (r : OdooProxyRequest) : JsonVal :=
  .obj ([("id", .str r.id), ("action", .str r.action.toWire),
         ("model_id", .str r.model_id)]
    ++ optMember "keyword" (r.keyword.map (Option.map JsonVal.obj))
    ++ optMember "params" (r.params.map (Option.map JsonVal.arr))
    ++ optMember "fn_name" (r.fn_name.map (Option.map JsonVal.str))
    ++ [("odoo_instance", r.odoo_instance.toJson)])

/-- TS `OdooApiClientConfig`: base URL, API key, optional custom fetch. -/
structure OdooApiClientConfig where
  baseUrl : String
  apiKey : String
  fetch : Option Transport := none

/-- The data of a thrown `OdooProxyApiHttpError`. -/
structure OdooProxyApiHttpError where
  message : String
  status : Option Nat
  statusText : Option String
  response : Option HttpResponse

/-- The `OdooProxyApiHttpError` class constructor: `status` and
`statusText` are projected from the optional response (`response?.status`,
`response?.statusText`). -/
def OdooProxyApiHttpError.ofParts (message : String) (response : Option HttpResponse) :
    OdooProxyApiHttpError :=
  { message := message
    status := response.map (fun r => r.status)
    statusText := response.map (fun r => r.statusText)
    response := response }

/-- What one call of `forwardToOdoo` does: resolve with the envelope,
throw an `OdooProxyApiHttpError`, or throw an `OdooProxyApiFormatError`
(which carries only a message). -/
inductive DispatchOutcome where
  | ok (envelope : JsonVal)
  | httpError (e : OdooProxyApiHttpError)
  | formatError (message : String)

/-- TS class `OdooProxyApiClient`: the stored (readonly) fields. -/
structure OdooProxyApiClient where
  baseUrl : String
  apiKey : String
  fetchFn : Transport

/-- Whether a string ends in a slash (the regex `/\/$/` matches). -/
def endsWithSlash (s : String) : Bool := s.data.getLast? = some '/'

/-- The regex replacement `s.replace(/\/$/, "")`: remove exactly one
trailing slash when one is present, otherwise leave the string alone. -/
def stripOneTrailingSlash (s : String) : String :=
  if endsWithSlash s then String.mk s.data.dropLast else s

/-- The `OdooProxyApiClient` constructor.  JS string falsiness
(`!config.baseUrl`) is emptiness for the declared string fields;
`config.baseUrl.replace(/\/$/, "")` removes exactly one trailing slash
when present; `config.fetch ?? globalThis.fetch` is modelled with the
ambient fetch passed explicitly (`none` when the environment provides
none), and a missing transport is rejected after the fallback. -/
def OdooProxyApiClient.make (config : OdooApiClientConfig)
    (ambientFetch : Option Transport) : Except String OdooProxyApiClient :=
  if config.baseUrl = "" ∨ config.apiKey = "" then
    .error "OdooProxyApiClient requires baseUrl and apiKey in configuration."
  else
    let baseUrl := stripOneTrailingSlash config.baseUrl
    match config.fetch <|> ambientFetch with
    | some fetchFn => .ok { baseUrl := baseUrl, apiKey := config.apiKey, fetchFn := fetchFn }
    | none =>
        .error "Fetch API is not available. Please provide a polyfill or ensure you are in a supported environment."

/-- TS `createOdooProxyClient`: just invokes the constructor. -/
def createOdooProxyClient (config : OdooApiClientConfig)
    (ambientFetch : Option Transport) : Except String OdooProxyApiClient :=
  OdooProxyApiClient.make config ambientFetch

/-- The fixed expected-status set of `forwardToOdoo`. -/
def expectedStatuses : List Nat := [200, 400, 401, 500, 502, 504]

/-- The diagnostic text built for an out-of-contract status: the status
line, then — best effort, swallowing a body-read failure — up to 200
characters of a non-empty body, with an ellipsis marker when truncated. -/
def unexpectedStatusDetail (response : HttpResponse) : String :=
  let base := "Status: " ++ toString response.status ++ " " ++ response.statusText
  match response.bodyText with
  | .ok text =>
      if text ≠ "" then
        base ++ "\nResponse Body: " ++ text.take 200
          ++ (if text.length > 200 then "..." else "")
      else base
  | .error _ => base

/-- The structural envelope check of `forwardToOdoo`, negated as in the
source: not an object (`typeof`), or `null`, or `jsonrpc` not strictly
equal to the string `"2.0"` (absence included), or no `id` key. -/
def envelopeInvalid (responseData : JsonVal) : Bool :=
  decide (jsTypeof responseData ≠ "object")
  || (match responseData with | .null => true | _ => false)
  || (match jsProp responseData "jsonrpc" with
      | some (.str s) => decide (s ≠ "2.0")
      | _ => true)
  || !(jsHasProp responseData "id")

/-- The HTTP request `forwardToOdoo` builds before invoking the
transport: `POST` to `baseUrl + "/api/odoo"`, the three headers, and the
request serialized by `JSON.stringify` as the body. -/
def buildHttpRequest (client : OdooProxyApiClient) (request : OdooProxyRequest) :
    HttpRequest :=
  { url := client.baseUrl ++ "/api/odoo"
    method := "POST"
    headers := [("Content-Type", "application/json"),
                ("Accept", "application/json"),
                ("apikey", client.apiKey)]
    body := jsonStringify request.toJson }

/-- What `forwardToOdoo` does with a received response: the status
classification, then the body read / emptiness check / `JSON.parse` (one
`try`, whose `catch` wraps every failure — including the inner
`throw new OdooProxyApiFormatError("Received empty response body")` and a
`response.text()` rejection — in the `Failed to parse JSON response`
message), then the structural envelope check. -/
def handleResponse (response : HttpResponse) : DispatchOutcome :=
  if !(expectedStatuses.contains response.status) then
    .httpError (OdooProxyApiHttpError.ofParts
      ("Unexpected HTTP response from Odoo Proxy API. "
        ++ unexpectedStatusDetail response) (some response))
  else
    match response.bodyText with
    | .error readError =>
        .formatError ("Failed to parse JSON response from Odoo Proxy API: "
          ++ readError.getD "Unknown parsing error")
    | .ok text =>
      if text = "" then
        .formatError "Failed to parse JSON response from Odoo Proxy API: Received empty response body"
      else
        match jsonParse text with
        | .error parseError =>
            .formatError ("Failed to parse JSON response from Odoo Proxy API: "
              ++ parseError)
        | .ok responseData =>
          if envelopeInvalid responseData then
            .formatError "Invalid JSON-RPC 2.0 response format received from Odoo Proxy API."
          else
            .ok responseData

/-- What `forwardToOdoo` does with the settled transport call: a
pre-response failure becomes the network-error throw (no response object
attached); a response is handled by `handleResponse`. -/
def dispatchFetchResult : Except (Option String) HttpResponse → DispatchOutcome
  | .error networkError =>
      .httpError (OdooProxyApiHttpError.ofParts
        ("Network error calling Odoo Proxy API: "
          ++ networkError.getD "Unknown network error") none)
  | .ok response => handleResponse response

/-- The dispatch operation `forwardToOdoo`: build the request, invoke the
stored transport exactly once, classify the outcome.  The second
component is the list of transport invocations performed (the source
calls `this.fetchFn` once, in the first `try`). -/
def forwardToOdoo (client : OdooProxyApiClient) (request : OdooProxyRequest) :
    DispatchOutcome × List HttpRequest :=
  let httpRequest := buildHttpRequest client request
  (dispatchFetchResult (client.fetchFn httpRequest), [httpRequest])

/-! ## Concrete fixtures used by the witnesses -/

set_option maxRecDepth 10000

/-- A transport that fails before producing a response. -/
def trivialTransport : Transport := fun _ => .error none

/-- A transport that answers every request with the given response. -/
def constTransport (response : HttpResponse) : Transport := fun _ => .ok response

/-- A client with the given transport and fixed settings. -/
def clientWith (t : Transport) : OdooProxyApiClient :=
  { baseUrl := "http://h", apiKey := "k", fetchFn := t }

/-- A response with the given status and readable body. -/
def respOf (status : Nat) (body : String) : HttpResponse :=
  { status := status, statusText := "ST", bodyText := .ok body }

/-- A concrete target-instance configuration. -/
def sampleInstance : OdooInstanceConfig :=
  { url := "https://odoo.example", user_id := 2, db := "db", api_key := "userkey" }

/-- A concrete outbound request. -/
def sampleRequest : OdooProxyRequest :=
  { id := "x", action := .search_read, model_id := "res.partner",
    odoo_instance := sampleInstance }

/-! ## Helper lemmas -/

/-- The negated structural check of the source, as a positive
characterization: the check trips exactly on a non-object (JS `typeof`),
on `null`, on a `jsonrpc` property not strictly equal to `"2.0"`
(absence, or presence on an array, included), or on a missing `id` key. -/
theorem envelopeInvalid_iff (v : JsonVal) :
    envelopeInvalid v = true ↔
      (jsTypeof v ≠ "object" ∨ v = .null ∨
       jsProp v "jsonrpc" ≠ some (.str "2.0") ∨ jsHasProp v "id" = false) := by
  cases v with
  | null => simp [envelopeInvalid]
  | bool b => simp [envelopeInvalid, jsTypeof]
  | num lexeme => simp [envelopeInvalid, jsTypeof]
  | str s => simp [envelopeInvalid, jsTypeof]
  | arr elems => simp [envelopeInvalid, jsTypeof, jsProp]
  | obj fields =>
    simp only [envelopeInvalid, jsTypeof, jsProp, jsHasProp, Bool.or_eq_true,
      decide_eq_true_eq, ne_eq, Bool.not_eq_true']
    rcases hl : lookupLast "jsonrpc" fields with _ | w
    · simp
    · cases w <;> simp

/-- Contrapositive form of `envelopeInvalid_iff`: the check passes
exactly on an object with `jsonrpc` strictly `"2.0"` and an `id` key. -/
theorem envelopeInvalid_eq_false_iff (v : JsonVal) :
    envelopeInvalid v = false ↔
      (jsTypeof v = "object" ∧ v ≠ .null ∧
       jsProp v "jsonrpc" = some (.str "2.0") ∧ jsHasProp v "id" = true) := by
  have h := envelopeInvalid_iff v
  constructor
  · intro hf
    have : ¬(jsTypeof v ≠ "object" ∨ v = .null ∨
        jsProp v "jsonrpc" ≠ some (.str "2.0") ∨ jsHasProp v "id" = false) := by
      intro hc
      rw [h.mpr hc] at hf
      exact Bool.noConfusion hf
    push_neg at this
    exact ⟨this.1, this.2.1, this.2.2.1, by simpa using this.2.2.2⟩
  · intro ⟨h1, h2, h3, h4⟩
    cases he : envelopeInvalid v
    · rfl
    · rcases h.mp he with hc | hc | hc | hc
      · exact absurd h1 hc
      · exact absurd hc h2
      · exact absurd h3 hc
      · rw [h4] at hc; exact Bool.noConfusion hc

/-! ## Claims about construction -/

/-- C6: construction (constructor and factory) fails with a construction
error whenever the endpoint root or the credential is empty, and also
whenever no transport is supplied in the configuration and none is
available in the ambient environment. -/
theorem construction_fails_on_bad_config (config : OdooApiClientConfig)
    (ambientFetch : Option Transport)
    (h : config.baseUrl = "" ∨ config.apiKey = "" ∨
         (config.fetch = none ∧ ambientFetch = none)) :
    (∃ msg, OdooProxyApiClient.make config ambientFetch = .error msg) ∧
    (∃ msg, createOdooProxyClient config ambientFetch = .error msg) := by
  have key : ∃ msg, OdooProxyApiClient.make config ambientFetch = .error msg := by
    rcases h with h | h | ⟨h1, h2⟩
    · exact ⟨"OdooProxyApiClient requires baseUrl and apiKey in configuration.",
        by simp [OdooProxyApiClient.make, h]⟩
    · exact ⟨"OdooProxyApiClient requires baseUrl and apiKey in configuration.",
        by simp [OdooProxyApiClient.make, h]⟩
    · by_cases hb : config.baseUrl = "" ∨ config.apiKey = ""
      · exact ⟨"OdooProxyApiClient requires baseUrl and apiKey in configuration.",
          by simp [OdooProxyApiClient.make, hb]⟩
      · exact ⟨"Fetch API is not available. Please provide a polyfill or ensure you are in a supported environment.",
          by simp [OdooProxyApiClient.make, hb, h1, h2, Option.orElse]⟩
  exact ⟨key, by simpa [createOdooProxyClient] using key⟩

/-- Witness for C6 at the concrete configuration with an empty base URL. -/
theorem construction_fails_on_bad_config_witness :
    (∃ msg, OdooProxyApiClient.make { baseUrl := "", apiKey := "k" } none = .error msg) ∧
    (∃ msg, createOdooProxyClient { baseUrl := "", apiKey := "k" } none = .error msg) :=
  construction_fails_on_bad_config { baseUrl := "", apiKey := "k" } none (Or.inl rfl)

/-- C7: for every configuration with a non-empty endpoint root and
credential and an available transport, construction (constructor and
factory) succeeds, stores the credential unchanged, and normalizes the
endpoint root by removing exactly one trailing slash if present and
leaving it unchanged otherwise. -/
theorem construction_normalizes_endpoint (config : OdooApiClientConfig)
    (ambientFetch : Option Transport)
    (hbase : config.baseUrl ≠ "") (hkey : config.apiKey ≠ "")
    (hfetch : (config.fetch <|> ambientFetch).isSome = true) :
    ∃ client, OdooProxyApiClient.make config ambientFetch = .ok client ∧
      createOdooProxyClient config ambientFetch = .ok client ∧
      client.apiKey = config.apiKey ∧
      (endsWithSlash config.baseUrl = true →
        client.baseUrl = String.mk config.baseUrl.data.dropLast) ∧
      (endsWithSlash config.baseUrl = false → client.baseUrl = config.baseUrl) := by
  rcases hf : config.fetch <|> ambientFetch with _ | f
  · rw [hf] at hfetch; exact absurd hfetch (by simp)
  · refine ⟨{ baseUrl := stripOneTrailingSlash config.baseUrl,
              apiKey := config.apiKey, fetchFn := f },
      by simp [OdooProxyApiClient.make, hbase, hkey, hf],
      by simp [createOdooProxyClient, OdooProxyApiClient.make, hbase, hkey, hf],
      rfl, ?_, ?_⟩
    · intro hs; simp [stripOneTrailingSlash, hs]
    · intro hs; simp [stripOneTrailingSlash, hs]

/-- Witness for C7 at the concrete base URL `http://h/`, whose single
trailing slash is removed. -/
theorem construction_normalizes_endpoint_witness :
    ∃ client, OdooProxyApiClient.make
        { baseUrl := "http://h/", apiKey := "k", fetch := some trivialTransport } none = .ok client ∧
      createOdooProxyClient
        { baseUrl := "http://h/", apiKey := "k", fetch := some trivialTransport } none = .ok client ∧
      client.apiKey = "k" ∧
      (endsWithSlash "http://h/" = true →
        client.baseUrl = String.mk ("http://h/").data.dropLast) ∧
      (endsWithSlash "http://h/" = false → client.baseUrl = "http://h/") :=
  construction_normalizes_endpoint
    { baseUrl := "http://h/", apiKey := "k", fetch := some trivialTransport } none
    (by decide) (by decide) rfl

/-- Counterexample to C8: the configured base URL `"/"` passes the
non-emptiness check, loses its single trailing slash, and is stored as
the empty string — a successful construction whose stored endpoint root
is empty. -/
theorem stored_endpoint_root_can_be_empty :
    Except.map (fun client => client.baseUrl)
      (OdooProxyApiClient.make
        { baseUrl := "/", apiKey := "k", fetch := some trivialTransport } none)
      = .ok "" := rfl

/-- C8 (amended): after every successful construction the stored
endpoint root is the configured one with exactly one trailing slash
removed when present (so it is empty only for the configured root `"/"`,
and still slash-terminated only when the configured root ended in two or
more slashes), the configured root was non-empty, the stored credential
equals the configured one and is non-empty, and the settings are never
modified: every dispatch call in any sequence issues its request from
the same stored values. -/
theorem stored_settings_after_construction (config : OdooApiClientConfig)
    (ambientFetch : Option Transport) (client : OdooProxyApiClient)
    (h : OdooProxyApiClient.make config ambientFetch = .ok client) :
    client.baseUrl = stripOneTrailingSlash config.baseUrl ∧
    config.baseUrl ≠ "" ∧
    client.apiKey = config.apiKey ∧ client.apiKey ≠ "" ∧
    (∀ requests : List OdooProxyRequest,
      requests.map (fun r => (forwardToOdoo client r).2) =
        requests.map (fun r => [buildHttpRequest client r])) := by
  by_cases hb : config.baseUrl = "" ∨ config.apiKey = ""
  · simp [OdooProxyApiClient.make, hb] at h
  · push_neg at hb
    rcases hf : config.fetch <|> ambientFetch with _ | f
    · simp [OdooProxyApiClient.make, hb.1, hb.2, hf] at h
    · simp only [OdooProxyApiClient.make, hb.1, hb.2, hf] at h
      simp at h
      refine ⟨?_, hb.1, ?_, ?_, ?_⟩
      · rw [← h]
      · rw [← h]
      · rw [← h]; exact hb.2
      · intro requests; rfl

/-- Witness for the amended C8 at a concrete successful construction. -/
theorem stored_settings_after_construction_witness :
    (clientWith trivialTransport).baseUrl = stripOneTrailingSlash "http://h/" ∧
    ("http://h/" : String) ≠ "" ∧
    (clientWith trivialTransport).apiKey = "k" ∧ (clientWith trivialTransport).apiKey ≠ "" ∧
    (∀ requests : List OdooProxyRequest,
      requests.map (fun r => (forwardToOdoo (clientWith trivialTransport) r).2) =
        requests.map (fun r => [buildHttpRequest (clientWith trivialTransport) r])) :=
  stored_settings_after_construction
    { baseUrl := "http://h/", apiKey := "k", fetch := some trivialTransport } none
    (clientWith trivialTransport) rfl

/-! ## Claims about the dispatch operation -/

/-- C5: every invocation of the dispatch operation invokes the transport
exactly once (no retries), with method POST, target URL the stored
endpoint root concatenated with `/api/odoo`, the JSON content-type and
accept headers plus the stored credential in `apikey`, and as body the
JSON serialization of the caller request, passed through without
mutation or validation of its business fields. -/
theorem forwardToOdoo_invokes_transport_once (client : OdooProxyApiClient)
    (request : OdooProxyRequest) :
    (forwardToOdoo client request).2 =
      [{ url := client.baseUrl ++ "/api/odoo", method := "POST",
         headers := [("Content-Type", "application/json"),
                     ("Accept", "application/json"),
                     ("apikey", client.apiKey)],
         body := jsonStringify request.toJson }] := rfl

/-- C1: for every response with an expected status whose body parses to
a structurally valid envelope (an object, non-null, with `jsonrpc`
strictly `"2.0"` and an `id` key), the dispatch succeeds and returns
exactly the parsed structure unchanged — also when the `error` field of
the envelope is set: a business-level error inside a valid envelope is
returned as data, never thrown. -/
theorem forwardToOdoo_returns_valid_envelope_unchanged
    (client : OdooProxyApiClient) (request : OdooProxyRequest)
    (response : HttpResponse) (text : String) (envelope : JsonVal)
    (hfetch : client.fetchFn (buildHttpRequest client request) = .ok response)
    (hstatus : response.status ∈ expectedStatuses)
    (hbody : response.bodyText = .ok text)
    (hparse : jsonParse text = .ok envelope)
    (hobj : jsTypeof envelope = "object") (hnn : envelope ≠ .null)
    (hrpc : jsProp envelope "jsonrpc" = some (.str "2.0"))
    (hid : jsHasProp envelope "id" = true) :
    (forwardToOdoo client request).1 = .ok envelope := by
  have hstep : (forwardToOdoo client request).1 =
      dispatchFetchResult (client.fetchFn (buildHttpRequest client request)) := rfl
  have hc : expectedStatuses.contains response.status = true := by simpa using hstatus
  have htext : text ≠ "" := by
    intro he
    rw [he] at hparse
    simp [show jsonParse "" = (.error "Unexpected end of JSON input" : Except String JsonVal)
      from rfl] at hparse
  have hinv : envelopeInvalid envelope = false :=
    (envelopeInvalid_eq_false_iff envelope).mpr ⟨hobj, hnn, hrpc, hid⟩
  simp [hstep, hfetch, dispatchFetchResult, handleResponse, hc, hstatus, hbody, htext, hparse, hinv]

/-- The body of the 400 business-error example, as a string. -/
def errorEnvelopeBody : String :=
  "\x7b\"jsonrpc\":\"2.0\",\"id\":\"x\",\"error\":\x7b\"code\":-32600,\"message\":\"bad\"\x7d\x7d"

/-- The parsed envelope of the 400 business-error example. -/
def errorEnvelope : JsonVal :=
  .obj [("jsonrpc", .str "2.0"), ("id", .str "x"),
        ("error", .obj [("code", .num "-32600"), ("message", .str "bad")])]

/-- Witness for C1: the status-400 business-error example round-trips. -/
theorem forwardToOdoo_returns_valid_envelope_unchanged_witness :
    (forwardToOdoo (clientWith (constTransport (respOf 400 errorEnvelopeBody))) sampleRequest).1
      = .ok errorEnvelope :=
  forwardToOdoo_returns_valid_envelope_unchanged
    (clientWith (constTransport (respOf 400 errorEnvelopeBody))) sampleRequest
    (respOf 400 errorEnvelopeBody) errorEnvelopeBody errorEnvelope
    rfl (by decide) rfl rfl rfl (by intro h; exact JsonVal.noConfusion h) rfl rfl

/-- C2: the dispatch operation throws a Transport Error
(`OdooProxyApiHttpError`) if and only if either the transport failed
before producing a response — then the error carries a descriptive
message and no status, status text or response (`ofParts _ none` leaves
all three unset) — or the received status is outside
{200, 400, 401, 500, 502, 504} — then the error carries the status, the
status text, best-effort up to 200 characters of the body
(`unexpectedStatusDetail`, which swallows a read failure), and the
response object, and the body is never parsed as a JSON envelope. -/
theorem forwardToOdoo_httpError_iff (client : OdooProxyApiClient)
    (request : OdooProxyRequest) (e : OdooProxyApiHttpError) :
    (forwardToOdoo client request).1 = .httpError e ↔
      ((∃ m, client.fetchFn (buildHttpRequest client request) = .error m ∧
          e = OdooProxyApiHttpError.ofParts
            ("Network error calling Odoo Proxy API: " ++ m.getD "Unknown network error")
            none) ∨
       (∃ response, client.fetchFn (buildHttpRequest client request) = .ok response ∧
          response.status ∉ expectedStatuses ∧
          e = OdooProxyApiHttpError.ofParts
            ("Unexpected HTTP response from Odoo Proxy API. "
              ++ unexpectedStatusDetail response) (some response))) := by
  have hstep : (forwardToOdoo client request).1 =
      dispatchFetchResult (client.fetchFn (buildHttpRequest client request)) := rfl
  rw [hstep]
  rcases hfe : client.fetchFn (buildHttpRequest client request) with m | response
  · simp [dispatchFetchResult, eq_comm]
  · by_cases hc : expectedStatuses.contains response.status = true
    · have hmem : response.status ∈ expectedStatuses := by simpa using hc
      rcases hbt : response.bodyText with em | text
      · simp [dispatchFetchResult, handleResponse, hc, hbt, hmem]
      · by_cases ht : text = ""
        · simp [dispatchFetchResult, handleResponse, hc, hbt, ht, hmem]
        · rcases hjp : jsonParse text with pe | v
          · simp [dispatchFetchResult, handleResponse, hc, hbt, ht, hjp, hmem]
          · by_cases hev : envelopeInvalid v = true
            · simp [dispatchFetchResult, handleResponse, hc, hbt, ht, hjp, hev, hmem]
            · simp [dispatchFetchResult, handleResponse, hc, hbt, ht, hjp, hev, hmem]
    · have hcf : expectedStatuses.contains response.status = false := by
        simpa using hc
      have hnm : response.status ∉ expectedStatuses := by simpa using hcf
      simp [dispatchFetchResult, handleResponse, hcf, hnm, eq_comm]

/-- C3: for an expected status whose non-empty body parses as JSON, the
dispatch throws a Format Error if and only if the parsed value is not an
object, is null, has a `jsonrpc` value not strictly equal to `"2.0"`
(absence included), or lacks an `id` key; `result` and `error` are not
consulted, so no exclusivity between them is required. -/
theorem forwardToOdoo_formatError_iff_invalid_envelope
    (client : OdooProxyApiClient) (request : OdooProxyRequest)
    (response : HttpResponse) (text : String) (envelope : JsonVal)
    (hfetch : client.fetchFn (buildHttpRequest client request) = .ok response)
    (hstatus : response.status ∈ expectedStatuses)
    (hbody : response.bodyText = .ok text) (hne : text ≠ "")
    (hparse : jsonParse text = .ok envelope) :
    (∃ msg, (forwardToOdoo client request).1 = .formatError msg) ↔
      (jsTypeof envelope ≠ "object" ∨ envelope = .null ∨
       jsProp envelope "jsonrpc" ≠ some (.str "2.0") ∨
       jsHasProp envelope "id" = false) := by
  have hstep : (forwardToOdoo client request).1 =
      dispatchFetchResult (client.fetchFn (buildHttpRequest client request)) := rfl
  have hc : expectedStatuses.contains response.status = true := by simpa using hstatus
  rw [← envelopeInvalid_iff]
  by_cases hev : envelopeInvalid envelope = true
  · simp [hstep, hfetch, dispatchFetchResult, handleResponse, hc, hstatus, hbody, hne,
      hparse, hev]
  · simp [hstep, hfetch, dispatchFetchResult, handleResponse, hc, hstatus, hbody, hne,
      hparse, hev]

/-- A body missing the `jsonrpc` tag. -/
def missingTagBody : String := "\x7b\"result\":[1,2],\"id\":\"x\"\x7d"

/-- The parse of `missingTagBody`. -/
def missingTagEnvelope : JsonVal :=
  .obj [("result", .arr [.num "1", .num "2"]), ("id", .str "x")]

/-- Witness for C3 at a status-200 body missing the `jsonrpc` tag. -/
theorem forwardToOdoo_formatError_iff_invalid_envelope_witness :
    ((∃ msg, (forwardToOdoo (clientWith (constTransport (respOf 200 missingTagBody)))
        sampleRequest).1 = .formatError msg) ↔
      (jsTypeof missingTagEnvelope ≠ "object" ∨ missingTagEnvelope = .null ∨
       jsProp missingTagEnvelope "jsonrpc" ≠ some (.str "2.0") ∨
       jsHasProp missingTagEnvelope "id" = false)) :=
  forwardToOdoo_formatError_iff_invalid_envelope
    (clientWith (constTransport (respOf 200 missingTagBody))) sampleRequest
    (respOf 200 missingTagBody) missingTagBody missingTagEnvelope
    rfl (by decide) rfl (by decide) rfl

/-- C4: for an expected status, an empty body text yields a Format
Error whose message indicates the empty body (the inner empty-body
throw is re-wrapped by the parse catch, so the full message is the
parse-failure wrapper around `Received empty response body`), and a
non-empty body that fails to parse yields a Format Error whose message
includes the underlying parse failure message. -/
theorem forwardToOdoo_formatError_on_empty_or_unparsable
    (client : OdooProxyApiClient) (request : OdooProxyRequest)
    (response : HttpResponse)
    (hfetch : client.fetchFn (buildHttpRequest client request) = .ok response)
    (hstatus : response.status ∈ expectedStatuses) :
    (response.bodyText = .ok "" →
      (forwardToOdoo client request).1 =
        .formatError "Failed to parse JSON response from Odoo Proxy API: Received empty response body") ∧
    (∀ text msg, response.bodyText = .ok text → text ≠ "" →
      jsonParse text = .error msg →
      (forwardToOdoo client request).1 =
        .formatError ("Failed to parse JSON response from Odoo Proxy API: " ++ msg)) := by
  have hstep : (forwardToOdoo client request).1 =
      dispatchFetchResult (client.fetchFn (buildHttpRequest client request)) := rfl
  have hc : expectedStatuses.contains response.status = true := by simpa using hstatus
  constructor
  · intro hbody
    simp [hstep, hfetch, dispatchFetchResult, handleResponse, hc, hstatus, hbody]
  · intro text msg hbody hne hparse
    simp [hstep, hfetch, dispatchFetchResult, handleResponse, hc, hstatus, hbody, hne, hparse]

/-- Witness for C4 at a status-200 response with an empty body. -/
theorem forwardToOdoo_formatError_on_empty_or_unparsable_witness :
    (((respOf 200 "").bodyText = .ok "" →
      (forwardToOdoo (clientWith (constTransport (respOf 200 ""))) sampleRequest).1 =
        .formatError "Failed to parse JSON response from Odoo Proxy API: Received empty response body") ∧
    (∀ text msg, (respOf 200 "").bodyText = .ok text → text ≠ "" →
      jsonParse text = .error msg →
      (forwardToOdoo (clientWith (constTransport (respOf 200 ""))) sampleRequest).1 =
        .formatError ("Failed to parse JSON response from Odoo Proxy API: " ++ msg))) :=
  forwardToOdoo_formatError_on_empty_or_unparsable
    (clientWith (constTransport (respOf 200 ""))) sampleRequest (respOf 200 "")
    rfl (by decide)

/-- A response whose body read itself fails. -/
def unreadableResponse : HttpResponse :=
  { status := 200, statusText := "OK", bodyText := .error (some "body stream already read") }

/-- C9: if reading the body of an expected-status response fails, the
dispatch throws a Format Error (the read failure lands in the same catch
as JSON parse failures), not a Transport Error. -/
theorem body_read_failure_is_formatError
    (client : OdooProxyApiClient) (request : OdooProxyRequest)
    (response : HttpResponse) (msg : Option String)
    (hfetch : client.fetchFn (buildHttpRequest client request) = .ok response)
    (hstatus : response.status ∈ expectedStatuses)
    (hread : response.bodyText = .error msg) :
    (forwardToOdoo client request).1 =
      .formatError ("Failed to parse JSON response from Odoo Proxy API: "
        ++ msg.getD "Unknown parsing error") := by
  have hstep : (forwardToOdoo client request).1 =
      dispatchFetchResult (client.fetchFn (buildHttpRequest client request)) := rfl
  have hc : expectedStatuses.contains response.status = true := by simpa using hstatus
  simp [hstep, hfetch, dispatchFetchResult, handleResponse, hc, hstatus, hread]

/-- Witness for C9 at a status-200 response whose body read fails. -/
theorem body_read_failure_is_formatError_witness :
    (forwardToOdoo (clientWith (constTransport unreadableResponse)) sampleRequest).1 =
      .formatError ("Failed to parse JSON response from Odoo Proxy API: "
        ++ (some "body stream already read").getD "Unknown parsing error") :=
  body_read_failure_is_formatError
    (clientWith (constTransport unreadableResponse)) sampleRequest unreadableResponse
    (some "body stream already read") rfl (by decide) rfl

/-- A status-200 body whose envelope has a numeric `id` and an `error`
value with neither `code` nor `message`. -/
def shallowBody : String := "\x7b\"jsonrpc\":\"2.0\",\"id\":7,\"error\":\x7b\x7d\x7d"

/-- The parse of `shallowBody`. -/
def shallowEnvelope : JsonVal :=
  .obj [("jsonrpc", .str "2.0"), ("id", .num "7"), ("error", .obj [])]

/-- C10: the envelope validation checks only the presence of the `id`
key and the value of `jsonrpc`; it type-checks nothing else, so this
in-contract response whose `id` is the number 7 and whose `error` object
lacks `code` and `message` is accepted and returned as the envelope,
despite the declared response type. -/
theorem envelope_validation_is_shallow :
    (forwardToOdoo (clientWith (constTransport (respOf 200 shallowBody))) sampleRequest).1
        = .ok shallowEnvelope ∧
    jsProp shallowEnvelope "id" = some (.num "7") ∧
    jsProp shallowEnvelope "error" = some (.obj []) :=
  ⟨rfl, rfl, rfl⟩

end ODXProxy
